import Mathlib

/-!
A shallow embedding of `client/src/multiStorageService.ts` and
`client/src/googleAuthService.ts` from the googleauthservice repository,
with theorems checking the repository's specification against it.

Modelling conventions:
* The three browser stores (localStorage, the cookie jar, IndexedDB) are
  finite maps `String → Option String`.  `encodeURIComponent` /
  `decodeURIComponent` round-trip, so the cookie jar is modelled on raw
  keys and values; a browser keeps a cookie whose value is the empty
  string, so `setCookie k ""` stores `""`.
* Failure of the external stores (localStorage throwing, `document.cookie`
  throwing, IndexedDB open or request errors) is injected through a
  `Flags` record.  A JavaScript `try { ... } catch` around an operation is
  translated by consulting the flag and keeping the state unchanged.
* One JavaScript subtlety is translated explicitly: in
  `setIndexedDB` / `getIndexedDB` / `deleteIndexedDB` the `try` block
  executes `return new Promise(...)` — the promise is returned without
  being awaited inside the `try`, so a later rejection of that promise
  (the request's `onerror`) is NOT routed through the `catch`; only the
  `await getDB()` open failure is caught.  Fallible operations therefore
  return `Except Unit _` paired with the store state reached at the time
  of the rejection.
-/

namespace GoogleAuthSvc

/-- Pointwise update of a string-keyed map. -/
def setMap (m : String → Option String) (k : String) (v : Option String) :
    String → Option String :=
  fun q => if q = k then v else m q

/-- JavaScript truthiness of a `string | null` value: `null` and the empty
string are falsy. -/
def truthy : Option String → Bool
  | none => false
  | some s => !(s == "")

/-- The three physical stores of the Multi-Tier Storage Coordinator. -/
structure Store where
  ls : String → Option String
  cookie : String → Option String
  idb : String → Option String

def emptyStore : Store :=
  ⟨fun _ => none, fun _ => none, fun _ => none⟩

/-- Injected environment failures of the external storage engines. -/
structure Flags where
  lsGetThrows : Bool
  lsSetThrows : Bool
  lsRemoveThrows : Bool
  cookieThrows : Bool
  idbOpenError : Bool
  idbPutError : Bool
  idbGetError : Bool
  idbDeleteError : Bool
  deriving DecidableEq, Repr

/-- The fully healthy environment. -/
def okFlags : Flags :=
  ⟨false, false, false, false, false, false, false, false⟩

/-- `setCookie` (multiStorageService.ts): wrapped in try/catch, failure
leaves the jar unchanged. -/
def setCookie (f : Flags) (s : Store) (k v : String) : Store :=
  if f.cookieThrows then s
  else { s with cookie := setMap s.cookie k (some v) }

/-- `getCookie`: wrapped in try/catch, failure (or a missing cookie)
yields `null`. -/
def getCookie (f : Flags) (s : Store) (k : String) : Option String :=
  if f.cookieThrows then none else s.cookie k

/-- `deleteCookie`: expires the cookie; wrapped in try/catch. -/
def deleteCookie (f : Flags) (s : Store) (k : String) : Store :=
  if f.cookieThrows then s
  else { s with cookie := setMap s.cookie k none }

/-- `setIndexedDB`: the `await getDB()` open failure is caught (the
function then resolves with no write), but the put request's rejection
escapes the catch — the promise is returned from inside the `try` without
an `await`, so the caller sees the rejection. -/
def setIndexedDB (f : Flags) (s : Store) (k v : String) : Except Unit Store :=
  if f.idbOpenError then .ok s
  else if f.idbPutError then .error ()
  else .ok { s with idb := setMap s.idb k (some v) }

/-- `getIndexedDB`: open failure caught (`return null`), get request
rejection escapes, `request.result ?? null` otherwise. -/
def getIndexedDB (f : Flags) (s : Store) (k : String) :
    Except Unit (Option String) :=
  if f.idbOpenError then .ok none
  else if f.idbGetError then .error ()
  else .ok (s.idb k)

/-- `deleteIndexedDB`: open failure caught, delete request rejection
escapes. -/
def deleteIndexedDB (f : Flags) (s : Store) (k : String) : Except Unit Store :=
  if f.idbOpenError then .ok s
  else if f.idbDeleteError then .error ()
  else .ok { s with idb := setMap s.idb k none }

/-- `multiSet(key, value)` with `value` already serialized to a string by
the caller (the TS function stringifies non-strings first).  localStorage
and cookie writes are individually try/caught; the IndexedDB write is
awaited with no catch, so its escaping rejection propagates, with the two
synchronous writes already applied. -/
def multiSet (f : Flags) (s : Store) (k v : String) :
    Except Unit Unit × Store :=
  let s1 := if f.lsSetThrows then s else { s with ls := setMap s.ls k (some v) }
  let s2 := setCookie f s1 k v
  match setIndexedDB f s2 k v with
  | .ok s3 => (.ok (), s3)
  | .error e => (.error e, s2)

/-- The store a `multiGet` hit was found in. -/
inductive Tier
  | ls
  | cookie
  | idb
  deriving DecidableEq, Repr

/-- The repair fan-out at the end of `multiGet`: re-write the value into
every store other than `src`.  The localStorage write is try/caught with
an empty handler, the cookie write catches internally, and the IndexedDB
write is fire-and-forget with `.catch(() => ...)`, so all failures are
absorbed here. -/
def repairTier (f : Flags) (s : Store) (k v : String) (src : Tier) : Store :=
  let s1 :=
    if src = Tier.ls then s
    else if f.lsSetThrows then s
    else { s with ls := setMap s.ls k (some v) }
  let s2 := if src = Tier.cookie then s1 else setCookie f s1 k v
  if src = Tier.idb then s2
  else
    match setIndexedDB f s2 k v with
    | .ok s3 => s3
    | .error _ => s2

/-- `multiGet(key)`: probe localStorage (try/caught), then the cookie,
then IndexedDB, each probe guarded by JS truthiness of the value read so
far; on a truthy hit repair the other stores; return the last probe's
result even when falsy.  The IndexedDB read is awaited with no catch, so
its escaping rejection propagates. -/
def multiGet (f : Flags) (s : Store) (k : String) :
    Except Unit (Option String) × Store :=
  let v1 : Option String := if f.lsGetThrows then none else s.ls k
  let v2 : Option String := if truthy v1 then v1 else getCookie f s k
  if truthy v2 then
    let src := if truthy v1 then Tier.ls else Tier.cookie
    (.ok v2, repairTier f s k (v2.getD "") src)
  else
    match getIndexedDB f s k with
    | .error e => (.error e, s)
    | .ok v3 =>
      if truthy v3 then (.ok v3, repairTier f s k (v3.getD "") Tier.idb)
      else (.ok v3, s)

/-- `multiGetSync(key)`: localStorage (try/caught), returned only when
truthy, otherwise the cookie lookup's result is returned as-is.  The
function performs no writes and never consults IndexedDB. -/
def multiGetSync (f : Flags) (s : Store) (k : String) : Option String :=
  let v : Option String := if f.lsGetThrows then none else s.ls k
  if truthy v then v else getCookie f s k

/-- `multiRemove(key)`: localStorage removal try/caught, cookie deletion
catches internally, IndexedDB deletion awaited with no catch. -/
def multiRemove (f : Flags) (s : Store) (k : String) :
    Except Unit Unit × Store :=
  let s1 := if f.lsRemoveThrows then s else { s with ls := setMap s.ls k none }
  let s2 := deleteCookie f s1 k
  match deleteIndexedDB f s2 k with
  | .ok s3 => (.ok (), s3)
  | .error e => (.error e, s2)

/-! ## The authentication service (googleAuthService.ts)

The service's module state (`CONFIG`, `accessToken`, `authStateCallbacks`)
and the browser stores are gathered in a `World`; network endpoints and
the Google Identity script are an `Env` describing each call's outcome.
Operations append to an event trace recording network calls, the token
clear, the storage-removal step, provider interactions and subscriber
callbacks.  Callbacks are identified by reference, modelled as `Nat` ids.
`JSON.stringify` / `JSON.parse` of a user record are modelled by an
injective serialization `stringifyUser` and its partial inverse
`parseUser`. -/

/-- The `GoogleUser` identity record (types.ts); the optional
`name` / `profilePicture` fields are kept as plain strings, with the empty
string for an absent value, which matches how the code only ever tests
them for truthiness. -/
structure GoogleUser where
  userId : String
  email : String
  name : String
  isNewUser : Bool
  deriving DecidableEq, Repr

/-- Models `JSON.stringify` on a user record: an injective serialization
into the string stored by the Storage Coordinator. -/
def stringifyUser (u : GoogleUser) : String :=
  "user|" ++ u.userId ++ "|" ++ u.email ++ "|" ++ u.name ++
    (if u.isNewUser then "|1" else "|0")

/-- Split a character list at every bar, for `parseUser`. -/
def fieldsOf : List Char → List String
  | [] => [""]
  | c :: rest =>
    if c = '|' then "" :: fieldsOf rest
    else
      match fieldsOf rest with
      | [] => [String.mk [c]]
      | f :: fs => String.mk (c :: f.data) :: fs

/-- Models `JSON.parse` applied to a stored identity: succeeds exactly on
serialized user records, the `catch` branch of the source returning
`null` otherwise. -/
def parseUser (s : String) : Option GoogleUser :=
  match fieldsOf s.data with
  | ["user", uid, em, nm, flag] =>
    if flag = "1" then some ⟨uid, em, nm, true⟩
    else if flag = "0" then some ⟨uid, em, nm, false⟩
    else none
  | _ => none

/-- The module-level `CONFIG` record. -/
structure GoogleAuthConfig where
  clientId : String
  apiBaseUrl : String
  storagePrefix : String
  deriving DecidableEq, Repr

/-- `CONFIG`'s initial value: empty ids and the default prefix. -/
def initialConfig : GoogleAuthConfig := ⟨"", "", "auth"⟩

/-- An argument to `configureGoogleAuth`: `storagePrefix` is an optional
field (`none` = omitted). -/
structure ConfigInput where
  clientId : String
  apiBaseUrl : String
  storagePrefix : Option String
  deriving DecidableEq, Repr

/-- `configureGoogleAuth(config)`: always overwrites clientId and
apiBaseUrl; the prefix only when `config.storagePrefix` is truthy (so an
omitted or empty prefix keeps the previous one). -/
def configureGoogleAuth (cfg : GoogleAuthConfig) (c : ConfigInput) :
    GoogleAuthConfig :=
  { clientId := c.clientId
    apiBaseUrl := c.apiBaseUrl
    storagePrefix :=
      match c.storagePrefix with
      | some p => if p = "" then cfg.storagePrefix else p
      | none => cfg.storagePrefix }

/-- The derived storage keys. -/
structure StorageKeys where
  user : String
  avatarCache : String
  deriving DecidableEq, Repr

/-- `getStorageKeys()`. -/
def getStorageKeys (cfg : GoogleAuthConfig) : StorageKeys :=
  ⟨cfg.storagePrefix ++ "_user", cfg.storagePrefix ++ "_avatar_cache"⟩

/-- `getAvatarCacheKey()`. -/
def getAvatarCacheKey (cfg : GoogleAuthConfig) : String :=
  (getStorageKeys cfg).avatarCache

/-- Observable events of an auth-service run.  `fetchMain` carries the
Authorization token attached to the wrapped request (none = no header);
`cbCall` records one subscriber callback invocation. -/
inductive Event
  | clearToken
  | storageRemove (key : String)
  | fetchAuthGoogle
  | fetchRefresh
  | fetchMe
  | fetchLogout
  | fetchMain (auth : Option String)
  | disableAutoSelect
  | revoke (email : String)
  | cbCall (id : Nat) (u : Option GoogleUser)
  | initGoogle
  deriving DecidableEq, Repr

/-- The network calls among the events. -/
def Event.isNetwork : Event → Bool
  | .fetchAuthGoogle => true
  | .fetchRefresh => true
  | .fetchMe => true
  | .fetchLogout => true
  | .fetchMain _ => true
  | _ => false

def Event.isRefreshCall : Event → Bool
  | .fetchRefresh => true
  | _ => false

def Event.isMainCall : Event → Bool
  | .fetchMain _ => true
  | _ => false

/-- The service's mutable state plus the browser stores and the run's
event trace.  `mainCalls` counts calls already made to the wrapped
endpoint (it indexes `Env.mainStatus`). -/
structure World where
  cfg : GoogleAuthConfig
  accessToken : Option String
  store : Store
  callbacks : List Nat
  trace : List Event
  mainCalls : Nat

/-- Outcome of a `POST /auth/refresh` call. -/
inductive RefreshResp
  | netError
  | httpError
  | body (success : Bool) (access_token : Option String)
  deriving DecidableEq, Repr

/-- Outcome of a `GET /auth/me` call. -/
inductive MeResp
  | netError
  | httpStatus (status : Nat)
  | okUser (u : GoogleUser)
  deriving DecidableEq, Repr

/-- The external environment of one run: the Google Identity script's
availability, each auth endpoint's behaviour, and the wrapped endpoint's
status per call index. -/
structure Env where
  googleLoaded : Bool
  logoutFails : Bool
  refreshResp : RefreshResp
  meResp : MeResp
  mainStatus : Nat → Nat

def emit (w : World) (e : Event) : World :=
  { w with trace := w.trace ++ [e] }

/-- `notifyAuthStateChange(user)`: invoke every subscribed callback, in
list order. -/
def notifyAuthStateChange (w : World) (u : Option GoogleUser) : World :=
  { w with trace := w.trace ++ w.callbacks.map (fun c => Event.cbCall c u) }

/-- `onAuthStateChange(callback)`: push onto the subscriber list. -/
def onAuthStateChange (cbs : List Nat) (c : Nat) : List Nat := cbs ++ [c]

/-- The unsubscribe closure returned by `onAuthStateChange`: replaces the
list with a filter dropping the callback. -/
def unsubscribe (c : Nat) (cbs : List Nat) : List Nat :=
  cbs.filter (fun x => x != c)

/-- The ordered callback invocations one notification produces. -/
def notifyOrder (cbs : List Nat) (u : Option GoogleUser) : List Event :=
  cbs.map (fun c => Event.cbCall c u)

/-- `getCurrentUserSync()`: synchronous read of the cached identity;
falsy (missing or empty) strings and parse failures give `null`. -/
def getCurrentUserSync (f : Flags) (w : World) : Option GoogleUser :=
  match multiGetSync f w.store (getStorageKeys w.cfg).user with
  | none => none
  | some s => if s = "" then none else parseUser s

/-- `signOut()`: read the cached user and token, clear the volatile token,
remove the cached identity from all stores ( `storageRemove` marks the
step; an escaping IndexedDB deletion error propagates, as in the source),
best-effort provider teardown and server logout (the logout rejection is
caught and ignored), broadcast `null`, re-init the provider. -/
def signOut (env : Env) (f : Flags) (w : World) : Except Unit Unit × World :=
  let user := getCurrentUserSync f w
  let token := w.accessToken
  let w1 := emit { w with accessToken := none } Event.clearToken
  let w2 := emit w1 (Event.storageRemove (getStorageKeys w1.cfg).user)
  match multiRemove f w2.store (getStorageKeys w2.cfg).user with
  | (.error e, s) => (.error e, { w2 with store := s })
  | (.ok _, s) =>
    let w3 := { w2 with store := s }
    let w4 :=
      if env.googleLoaded then
        let wa := emit w3 Event.disableAutoSelect
        match user with
        | some u => if u.email = "" then wa else emit wa (Event.revoke u.email)
        | none => wa
      else w3
    let w5 := if truthy token then emit w4 Event.fetchLogout else w4
    let w6 := notifyAuthStateChange w5 none
    (.ok (), emit w6 Event.initGoogle)

/-- `refreshToken()`: one `POST /auth/refresh`.  A non-OK response signs
out (a failure of that sign-out would be caught by the surrounding try)
and reports `false`; a network error is caught and reports `false`; an OK
response yields `true` and stores the token only when the body carries
`success` and a truthy `access_token`. -/
def refreshToken (env : Env) (f : Flags) (w : World) : Bool × World :=
  let w1 := emit w Event.fetchRefresh
  match env.refreshResp with
  | .netError => (false, w1)
  | .httpError =>
    let r := signOut env f w1
    (false, r.2)
  | .body ok tok =>
    if ok && truthy tok then (true, { w1 with accessToken := tok })
    else (false, w1)

/-- `fetchUserInfo()`: requires a truthy in-memory token; `GET /auth/me`;
401 triggers sign-out; an OK body updates the cached identity, notifies
subscribers and returns the user.  Every failure inside is caught and
yields `null`. -/
def fetchUserInfo (env : Env) (f : Flags) (w : World) :
    Option GoogleUser × World :=
  match w.accessToken with
  | none => (none, w)
  | some t =>
    if t = "" then (none, w)
    else
      let w1 := emit w Event.fetchMe
      match env.meResp with
      | .netError => (none, w1)
      | .httpStatus st =>
        if st = 401 then
          let r := signOut env f w1
          (none, r.2)
        else (none, w1)
      | .okUser u =>
        let u2 : GoogleUser := { u with isNewUser := false }
        match multiSet f w1.store (getStorageKeys w1.cfg).user (stringifyUser u2) with
        | (.error _, s) => (none, { w1 with store := s })
        | (.ok _, s) =>
          let w2 := notifyAuthStateChange { w1 with store := s } (some u2)
          (some u2, w2)

/-- `initializeAuth()`: with a truthy token in memory, validate it via the
profile fetch and finish if that succeeds; with no cached identity,
initialize the provider (no network) and finish anonymous; otherwise one
silent refresh, then on success one profile fetch; any fall-through
initializes the provider and resolves `null`. -/
def initializeAuth (env : Env) (f : Flags) (w : World) :
    Option GoogleUser × World :=
  let step1 : Option GoogleUser × World :=
    if truthy w.accessToken then fetchUserInfo env f w else (none, w)
  match step1 with
  | (some u, wa) => (some u, wa)
  | (none, wa) =>
    match getCurrentUserSync f wa with
    | none => (none, emit wa Event.initGoogle)
    | some _ =>
      let r := refreshToken env f wa
      if r.1 then
        match fetchUserInfo env f r.2 with
        | (some u, wc) => (some u, wc)
        | (none, wc) => (none, emit wc Event.initGoogle)
      else (none, emit r.2 Event.initGoogle)

/-- The Authorization header `authenticatedFetch` attaches on its first
request: present only for a truthy token. -/
def bearerOf (tok : Option String) : Option String :=
  match tok with
  | some t => if t = "" then none else some t
  | none => none

/-- One call of the wrapped endpoint: the status is `Env.mainStatus` at
the current call index. -/
def mainFetch (env : Env) (auth : Option String) (w : World) : Nat × World :=
  (env.mainStatus w.mainCalls,
   { emit w (Event.fetchMain auth) with mainCalls := w.mainCalls + 1 })

/-- `authenticatedFetch(url, options)`: one request with the current
token; on a 401 with a truthy token, one silent refresh, then either one
retry carrying the refreshed token (returning the retry's response) or a
forced sign-out returning the original response.  The direct `await
signOut()` is not try/caught, so its escaping error would propagate. -/
def authenticatedFetch (env : Env) (f : Flags) (w : World) :
    Except Unit Nat × World :=
  let token := w.accessToken
  let r1 := mainFetch env (bearerOf token) w
  if r1.1 = 401 && truthy token then
    let r2 := refreshToken env f r1.2
    if r2.1 then
      let r3 := mainFetch env r2.2.accessToken r2.2
      (.ok r3.1, r3.2)
    else
      let r3 := signOut env f r2.2
      match r3.1 with
      | .ok _ => (.ok r1.1, r3.2)
      | .error e => (.error e, r3.2)
  else (.ok r1.1, r1.2)

/-- Whether `refreshToken` reports success, as a function of the refresh
endpoint's behaviour. -/
def refreshSucceeds : RefreshResp → Bool
  | .body ok tok => ok && truthy tok
  | _ => false

/-- The provider/logout events `signOut` places between the storage
removal and the broadcast (used to characterize `signOut`'s trace). -/
def signOutMid (env : Env) (user : Option GoogleUser) (token : Option String) :
    List Event :=
  (if env.googleLoaded then
     Event.disableAutoSelect ::
       (match user with
        | some u => if u.email = "" then [] else [Event.revoke u.email]
        | none => [])
   else []) ++
  (if truthy token then [Event.fetchLogout] else [])

/-- A sequence of `configureGoogleAuth` calls applied to the initial
`CONFIG`. -/
def applyConfigs (cs : List ConfigInput) : GoogleAuthConfig :=
  cs.foldl configureGoogleAuth initialConfig

/-- The claim's reading of the effective prefix: the `storagePrefix` of
the most recent call that explicitly supplied one (empty or not),
defaulting to "auth".  Stated from the claim's words, for comparison with
the code. -/
def lastExplicitPrefixSpec (cs : List ConfigInput) : String :=
  (cs.filterMap (fun c => c.storagePrefix)).getLastD "auth"

/-- The prefix the code actually keeps: the most recent non-empty
supplied `storagePrefix`, defaulting to "auth". -/
def lastNonEmptyPrefix (cs : List ConfigInput) : String :=
  (cs.filterMap (fun c =>
    match c.storagePrefix with
    | some p => if p = "" then none else some p
    | none => none)).getLastD "auth"

/-- A subscription-list event: one `onAuthStateChange` call or one call
of an unsubscribe closure. -/
inductive SubEvent
  | sub (c : Nat)
  | unsub (c : Nat)
  deriving DecidableEq, Repr

/-- Run a sequence of subscribe/unsubscribe events over the subscriber
list. -/
def applySubEvents : List SubEvent → List Nat → List Nat
  | [], cbs => cbs
  | .sub c :: rest, cbs => applySubEvents rest (onAuthStateChange cbs c)
  | .unsub c :: rest, cbs => applySubEvents rest (unsubscribe c cbs)

/-- The ids subscribed by a sequence of events, in subscription order. -/
def subsOf : List SubEvent → List Nat
  | [] => []
  | .sub c :: rest => c :: subsOf rest
  | .unsub _ :: rest => subsOf rest

/-! Concrete stores, worlds and environments used by the counterexamples
and witnesses. -/

/-- Only localStorage holds a value at "k", and that value is `""`. -/
def lsOnlyEmpty : Store :=
  { emptyStore with ls := setMap emptyStore.ls "k" (some "") }

/-- Only IndexedDB holds "v" at "k". -/
def idbOnlyStore : Store :=
  { emptyStore with idb := setMap emptyStore.idb "k" (some "v") }

/-- localStorage holds `""` at "k" and the cookie jar holds "c". -/
def lsEmptyCookieC : Store :=
  { emptyStore with
    ls := setMap emptyStore.ls "k" (some "")
    cookie := setMap emptyStore.cookie "k" (some "c") }

/-- Only localStorage holds "v" at "k". -/
def lsOnlyV : Store :=
  { emptyStore with ls := setMap emptyStore.ls "k" (some "v") }

/-- Two configuration calls: the second explicitly supplies the empty
string as the prefix. -/
def divergingCalls : List ConfigInput :=
  [⟨"cid", "api", some "x"⟩, ⟨"cid", "api", some ""⟩]

def cachedUser : GoogleUser := ⟨"uid1", "alice@example.com", "Alice", false⟩

/-- No token in memory, the serialized `cachedUser` in localStorage under
the default user key. -/
def seededWorld : World :=
  { cfg := initialConfig
    accessToken := none
    store := { emptyStore with
      ls := setMap emptyStore.ls "auth_user" (some (stringifyUser cachedUser)) }
    callbacks := []
    trace := []
    mainCalls := 0 }

/-- An environment whose refresh and profile endpoints fail with network
errors. -/
def quietEnv : Env :=
  { googleLoaded := true
    logoutFails := false
    refreshResp := .netError
    meResp := .netError
    mainStatus := fun _ => 200 }

/-- A fresh browser: no token, empty stores, one subscriber. -/
def freshWorld : World :=
  { cfg := initialConfig
    accessToken := none
    store := emptyStore
    callbacks := []
    trace := []
    mainCalls := 0 }

/-- The wrapped endpoint 401s once then 200s; the refresh endpoint
succeeds with a new token. -/
def retryEnv : Env :=
  { googleLoaded := true
    logoutFails := false
    refreshResp := .body true (some "tok2")
    meResp := .netError
    mainStatus := fun n => if n = 0 then 401 else 200 }

/-- A world holding the access token "tok1" and one subscriber. -/
def tokenWorld : World :=
  { cfg := initialConfig
    accessToken := some "tok1"
    store := emptyStore
    callbacks := [7]
    trace := []
    mainCalls := 0 }

/-! ## Helper lemmas -/

@[simp] theorem okFlags_lsGetThrows : okFlags.lsGetThrows = false := rfl

@[simp] theorem okFlags_lsSetThrows : okFlags.lsSetThrows = false := rfl

@[simp] theorem okFlags_lsRemoveThrows : okFlags.lsRemoveThrows = false := rfl

@[simp] theorem okFlags_cookieThrows : okFlags.cookieThrows = false := rfl

@[simp] theorem okFlags_idbOpenError : okFlags.idbOpenError = false := rfl

@[simp] theorem okFlags_idbPutError : okFlags.idbPutError = false := rfl

@[simp] theorem okFlags_idbGetError : okFlags.idbGetError = false := rfl

@[simp] theorem okFlags_idbDeleteError : okFlags.idbDeleteError = false := rfl

theorem setMap_same (m : String → Option String) (k : String) (v : Option String) :
    setMap m k v k = v := by
  simp [setMap]

theorem truthy_none : truthy none = false := rfl

theorem truthy_some_ne (s : String) (h : s ≠ "") : truthy (some s) = true := by
  simp [truthy, h]

theorem notifyOrder_filter_refresh (cbs : List Nat) (u : Option GoogleUser) :
    (notifyOrder cbs u).filter Event.isRefreshCall = [] := by
  induction cbs with
  | nil => rfl
  | cons c rest ih => simp [notifyOrder, Event.isRefreshCall] at ih ⊢

theorem notifyOrder_filter_main (cbs : List Nat) (u : Option GoogleUser) :
    (notifyOrder cbs u).filter Event.isMainCall = [] := by
  induction cbs with
  | nil => rfl
  | cons c rest ih => simp [notifyOrder, Event.isMainCall] at ih ⊢

theorem signOutMid_filter_refresh (env : Env) (u : Option GoogleUser)
    (tok : Option String) :
    (signOutMid env u tok).filter Event.isRefreshCall = [] := by
  unfold signOutMid
  cases env.googleLoaded <;> cases truthy tok <;>
    rcases u with _ | u <;> simp [Event.isRefreshCall]

theorem signOutMid_filter_main (env : Env) (u : Option GoogleUser)
    (tok : Option String) :
    (signOutMid env u tok).filter Event.isMainCall = [] := by
  unfold signOutMid
  cases env.googleLoaded <;> cases truthy tok <;>
    rcases u with _ | u <;> simp [Event.isMainCall]

theorem mem_notifyOrder (cbs : List Nat) (u : Option GoogleUser) (c : Nat)
    (hc : c ∈ cbs) : Event.cbCall c u ∈ notifyOrder cbs u :=
  List.mem_map_of_mem _ hc

/-- Full characterization of `signOut` in the healthy environment. -/
theorem signOut_eq (env : Env) (w : World) :
    signOut env okFlags w =
      (.ok (),
       { cfg := w.cfg
         accessToken := none
         store :=
           { ls := setMap w.store.ls (getStorageKeys w.cfg).user none
             cookie := setMap w.store.cookie (getStorageKeys w.cfg).user none
             idb := setMap w.store.idb (getStorageKeys w.cfg).user none }
         callbacks := w.callbacks
         trace :=
           w.trace ++ Event.clearToken ::
             Event.storageRemove (getStorageKeys w.cfg).user ::
             signOutMid env (getCurrentUserSync okFlags w) w.accessToken ++
             notifyOrder w.callbacks none ++ [Event.initGoogle]
         mainCalls := w.mainCalls }) := by
  cases hg : env.googleLoaded with
  | false =>
    cases ht : truthy w.accessToken <;>
      simp [signOut, signOutMid, hg, ht, multiRemove, deleteCookie, deleteIndexedDB,
        emit, notifyAuthStateChange, notifyOrder, List.append_assoc]
  | true =>
    rcases hu : getCurrentUserSync okFlags w with _ | u
    · cases ht : truthy w.accessToken <;>
        simp [signOut, signOutMid, hg, hu, ht, multiRemove, deleteCookie, deleteIndexedDB,
          emit, notifyAuthStateChange, notifyOrder, List.append_assoc]
    · by_cases he : u.email = "" <;> cases ht : truthy w.accessToken <;>
        simp [signOut, signOutMid, hg, hu, he, ht, multiRemove, deleteCookie,
          deleteIndexedDB, emit, notifyAuthStateChange, notifyOrder, List.append_assoc]

theorem signOut_state_spec (env : Env) (w : World) :
    (signOut env okFlags w).2.accessToken = none ∧
    (signOut env okFlags w).2.callbacks = w.callbacks ∧
    (signOut env okFlags w).2.trace.filter Event.isRefreshCall =
      w.trace.filter Event.isRefreshCall ∧
    (signOut env okFlags w).2.trace.filter Event.isMainCall =
      w.trace.filter Event.isMainCall ∧
    ∀ c ∈ w.callbacks, Event.cbCall c none ∈ (signOut env okFlags w).2.trace := by
  rw [signOut_eq]
  refine ⟨rfl, rfl, ?_, ?_, ?_⟩
  · simp [List.filter_append, signOutMid_filter_refresh, notifyOrder_filter_refresh,
      Event.isRefreshCall]
  · simp [List.filter_append, signOutMid_filter_main, notifyOrder_filter_main,
      Event.isMainCall]
  · intro c hc
    have hm := mem_notifyOrder w.callbacks none c hc
    simp [hm]

theorem signOut_result_ok (env : Env) (w : World) :
    (signOut env okFlags w).1 = .ok () := by
  rw [signOut_eq]

theorem signOut_accessToken_none (env : Env) (w : World) :
    (signOut env okFlags w).2.accessToken = none :=
  (signOut_state_spec env w).1

theorem signOut_callbacks_eq (env : Env) (w : World) :
    (signOut env okFlags w).2.callbacks = w.callbacks :=
  (signOut_state_spec env w).2.1

theorem signOut_filter_refresh (env : Env) (w : World) :
    (signOut env okFlags w).2.trace.filter Event.isRefreshCall =
      w.trace.filter Event.isRefreshCall :=
  (signOut_state_spec env w).2.2.1

theorem signOut_filter_main (env : Env) (w : World) :
    (signOut env okFlags w).2.trace.filter Event.isMainCall =
      w.trace.filter Event.isMainCall :=
  (signOut_state_spec env w).2.2.2.1

theorem signOut_mem_broadcast (env : Env) (w : World) (c : Nat)
    (hc : c ∈ w.callbacks) :
    Event.cbCall c none ∈ (signOut env okFlags w).2.trace :=
  (signOut_state_spec env w).2.2.2.2 c hc

theorem foldl_configure_prefix (cs : List ConfigInput) (cfg : GoogleAuthConfig) :
    (cs.foldl configureGoogleAuth cfg).storagePrefix =
      (cs.filterMap (fun c =>
        match c.storagePrefix with
        | some p => if p = "" then none else some p
        | none => none)).getLastD cfg.storagePrefix := by
  induction cs generalizing cfg with
  | nil => rfl
  | cons c rest ih =>
    rw [List.filterMap_cons, List.foldl_cons, ih]
    cases h : c.storagePrefix with
    | none => simp [configureGoogleAuth, h]
    | some p =>
      by_cases hp : p = ""
      · simp [configureGoogleAuth, h, hp]
      · simp only [h, hp, if_neg, ite_false]
        rw [List.getLastD_cons]
        simp [configureGoogleAuth, h, hp]

theorem applySubEvents_sublist (evs : List SubEvent) (cbs : List Nat) :
    (applySubEvents evs cbs).Sublist (cbs ++ subsOf evs) := by
  induction evs generalizing cbs with
  | nil => simp [applySubEvents, subsOf]
  | cons e rest ih =>
    cases e with
    | sub c =>
      have h := ih (onAuthStateChange cbs c)
      simpa [onAuthStateChange, subsOf, List.append_assoc] using h
    | unsub c =>
      refine (ih (unsubscribe c cbs)).trans ?_
      exact List.Sublist.append (List.filter_sublist _) (List.Sublist.refl _)

theorem applySubEvents_subs_only (ids : List Nat) (cbs : List Nat) :
    applySubEvents (ids.map SubEvent.sub) cbs = cbs ++ ids := by
  induction ids generalizing cbs with
  | nil => simp [applySubEvents]
  | cons c rest ih =>
    simp [applySubEvents, onAuthStateChange, ih, List.append_assoc]

/-! ## Claim theorems -/

/-- C1: when `authenticatedFetch`'s first response is a 401 and a
non-empty access token is in memory, exactly one refresh call is made; if
the refresh succeeds the original request is retried exactly once,
carrying the refreshed token, and the retry's response is returned; if
the refresh fails, sign-out is forced (token cleared, signed-out state
broadcast to every subscriber) and the original 401 is returned. -/
theorem authenticatedFetch_single_refresh_retry (env : Env) (w : World) (t : String)
    (hTok : w.accessToken = some t) (ht : t ≠ "")
    (h401 : env.mainStatus w.mainCalls = 401) (hTr : w.trace = []) :
    ((authenticatedFetch env okFlags w).2.trace.filter Event.isRefreshCall).length = 1 ∧
    (refreshSucceeds env.refreshResp = true →
       (authenticatedFetch env okFlags w).1 = .ok (env.mainStatus (w.mainCalls + 1)) ∧
       ((authenticatedFetch env okFlags w).2.trace.filter Event.isMainCall).length = 2 ∧
       ∃ tok : String,
         (authenticatedFetch env okFlags w).2.accessToken = some tok ∧
         (authenticatedFetch env okFlags w).2.trace.getLast? =
           some (Event.fetchMain (some tok))) ∧
    (refreshSucceeds env.refreshResp = false →
       (authenticatedFetch env okFlags w).1 = .ok 401 ∧
       ((authenticatedFetch env okFlags w).2.trace.filter Event.isMainCall).length = 1 ∧
       (authenticatedFetch env okFlags w).2.accessToken = none ∧
       ∀ c ∈ w.callbacks, Event.cbCall c none ∈ (authenticatedFetch env okFlags w).2.trace) := by
  obtain ⟨cfg, atok, store, cbs, tr, mc⟩ := w
  simp only at hTok h401 hTr ⊢
  subst hTok hTr
  have hbt : bearerOf (some t) = some t := by simp [bearerOf, ht]
  have htt : truthy (some t) = true := truthy_some_ne t ht
  cases hr : env.refreshResp with
  | netError =>
    refine ⟨?_, ?_, ?_⟩
    · simp [authenticatedFetch, mainFetch, emit, refreshToken, hr, hbt, htt, h401,
        signOut_result_ok, signOut_filter_refresh, Event.isRefreshCall, Event.isMainCall,
        List.filter_append]
    · intro hfalse
      simp [refreshSucceeds] at hfalse
    · intro _
      refine ⟨?_, ?_, ?_, ?_⟩
      · simp [authenticatedFetch, mainFetch, emit, refreshToken, hr, hbt, htt, h401,
          signOut_result_ok]
      · simp [authenticatedFetch, mainFetch, emit, refreshToken, hr, hbt, htt, h401,
          signOut_result_ok, signOut_filter_main, Event.isRefreshCall, Event.isMainCall,
          List.filter_append]
      · simp [authenticatedFetch, mainFetch, emit, refreshToken, hr, hbt, htt, h401,
          signOut_result_ok, signOut_accessToken_none]
      · intro c hc
        simp [authenticatedFetch, mainFetch, emit, refreshToken, hr, hbt, htt, h401,
          signOut_result_ok]
        refine signOut_mem_broadcast env _ c ?_
        simpa [signOut_callbacks_eq] using hc
  | httpError =>
    refine ⟨?_, ?_, ?_⟩
    · simp [authenticatedFetch, mainFetch, emit, refreshToken, hr, hbt, htt, h401,
        signOut_result_ok, signOut_filter_refresh, Event.isRefreshCall, Event.isMainCall,
        List.filter_append]
    · intro hfalse
      simp [refreshSucceeds] at hfalse
    · intro _
      refine ⟨?_, ?_, ?_, ?_⟩
      · simp [authenticatedFetch, mainFetch, emit, refreshToken, hr, hbt, htt, h401,
          signOut_result_ok]
      · simp [authenticatedFetch, mainFetch, emit, refreshToken, hr, hbt, htt, h401,
          signOut_result_ok, signOut_filter_main, Event.isRefreshCall, Event.isMainCall,
          List.filter_append]
      · simp [authenticatedFetch, mainFetch, emit, refreshToken, hr, hbt, htt, h401,
          signOut_result_ok, signOut_accessToken_none]
      · intro c hc
        simp [authenticatedFetch, mainFetch, emit, refreshToken, hr, hbt, htt, h401,
          signOut_result_ok]
        refine signOut_mem_broadcast env _ c ?_
        simpa [signOut_callbacks_eq] using hc
  | body ok tok =>
    cases hok : ok with
    | true =>
      cases tok with
      | none =>
        refine ⟨?_, ?_, ?_⟩
        · simp [authenticatedFetch, mainFetch, emit, refreshToken, hr, hok, hbt, htt, h401,
            truthy_none, signOut_result_ok, signOut_filter_refresh, Event.isRefreshCall,
            Event.isMainCall, List.filter_append]
        · intro hfalse
          simp [refreshSucceeds, hok, truthy_none] at hfalse
        · intro _
          refine ⟨?_, ?_, ?_, ?_⟩
          · simp [authenticatedFetch, mainFetch, emit, refreshToken, hr, hok, hbt, htt, h401,
              truthy_none, signOut_result_ok]
          · simp [authenticatedFetch, mainFetch, emit, refreshToken, hr, hok, hbt, htt, h401,
              truthy_none, signOut_result_ok, signOut_filter_main, Event.isRefreshCall,
              Event.isMainCall, List.filter_append]
          · simp [authenticatedFetch, mainFetch, emit, refreshToken, hr, hok, hbt, htt, h401,
              truthy_none, signOut_result_ok, signOut_accessToken_none]
          · intro c hc
            simp [authenticatedFetch, mainFetch, emit, refreshToken, hr, hok, hbt, htt, h401,
              truthy_none, signOut_result_ok]
            refine signOut_mem_broadcast env _ c ?_
            simpa [signOut_callbacks_eq] using hc
      | some s =>
        by_cases hs : s = ""
        · subst hs
          have hte : truthy (some "") = false := rfl
          refine ⟨?_, ?_, ?_⟩
          · simp [authenticatedFetch, mainFetch, emit, refreshToken, hr, hok, hbt, htt, h401,
              hte, signOut_result_ok, signOut_filter_refresh, Event.isRefreshCall,
              Event.isMainCall, List.filter_append]
          · intro hfalse
            simp [refreshSucceeds, hok, hte] at hfalse
          · intro _
            refine ⟨?_, ?_, ?_, ?_⟩
            · simp [authenticatedFetch, mainFetch, emit, refreshToken, hr, hok, hbt, htt, h401,
                hte, signOut_result_ok]
            · simp [authenticatedFetch, mainFetch, emit, refreshToken, hr, hok, hbt, htt, h401,
                hte, signOut_result_ok, signOut_filter_main, Event.isRefreshCall,
                Event.isMainCall, List.filter_append]
            · simp [authenticatedFetch, mainFetch, emit, refreshToken, hr, hok, hbt, htt, h401,
                hte, signOut_result_ok, signOut_accessToken_none]
            · intro c hc
              simp [authenticatedFetch, mainFetch, emit, refreshToken, hr, hok, hbt, htt, h401,
                hte, signOut_result_ok]
              refine signOut_mem_broadcast env _ c ?_
              simpa [signOut_callbacks_eq] using hc
        · have hts : truthy (some s) = true := truthy_some_ne s hs
          refine ⟨?_, ?_, ?_⟩
          · simp [authenticatedFetch, mainFetch, emit, refreshToken, hr, hok, hbt, htt, hts, h401,
              Event.isRefreshCall, List.filter_append]
          · intro _
            refine ⟨?_, ?_, ⟨s, ?_, ?_⟩⟩ <;>
              simp [authenticatedFetch, mainFetch, emit, refreshToken, hr, hok, hbt, htt, hts,
                h401, Event.isMainCall, List.filter_append]
          · intro hfalse
            simp [refreshSucceeds, hok, hts] at hfalse
    | false =>
      refine ⟨?_, ?_, ?_⟩
      · simp [authenticatedFetch, mainFetch, emit, refreshToken, hr, hok, hbt, htt, h401,
          signOut_result_ok, signOut_filter_refresh, Event.isRefreshCall, Event.isMainCall,
          List.filter_append]
      · intro hfalse
        simp [refreshSucceeds, hok] at hfalse
      · intro _
        refine ⟨?_, ?_, ?_, ?_⟩
        · simp [authenticatedFetch, mainFetch, emit, refreshToken, hr, hok, hbt, htt, h401,
            signOut_result_ok]
        · simp [authenticatedFetch, mainFetch, emit, refreshToken, hr, hok, hbt, htt, h401,
            signOut_result_ok, signOut_filter_main, Event.isRefreshCall, Event.isMainCall,
            List.filter_append]
        · simp [authenticatedFetch, mainFetch, emit, refreshToken, hr, hok, hbt, htt, h401,
            signOut_result_ok, signOut_accessToken_none]
        · intro c hc
          simp [authenticatedFetch, mainFetch, emit, refreshToken, hr, hok, hbt, htt, h401,
            signOut_result_ok]
          refine signOut_mem_broadcast env _ c ?_
          simpa [signOut_callbacks_eq] using hc

/-- C1 witness: against an endpoint answering 401 then 200 with a working
refresh endpoint, the caller receives the 200 and one refresh call was
made. -/
theorem authenticatedFetch_single_refresh_retry_witness :
    (authenticatedFetch retryEnv okFlags tokenWorld).1 = .ok 200 ∧
    ((authenticatedFetch retryEnv okFlags tokenWorld).2.trace.filter
        Event.isRefreshCall).length = 1 := by
  have h := authenticatedFetch_single_refresh_retry retryEnv tokenWorld "tok1" rfl
    (by decide) rfl rfl
  exact ⟨(h.2.1 rfl).1.trans rfl, h.1⟩

/-- C2: localStorage, cookie and IndexedDB-open failures are absorbed by
multiSet/multiGet/multiRemove (and a set-then-get still returns the value
when one synchronous tier failed during the write), but an IndexedDB
put/get/delete request error after a successful open escapes to the
caller: the promise rejection bypasses the catch, contradicting the
absorb-all-tier-failures contract. -/
theorem multiStorage_tier_failure_absorption_and_idb_escape :
    (multiSet ⟨false, true, false, false, false, false, false, false⟩ emptyStore "k" "v").1 = .ok () ∧
    (multiSet ⟨false, false, false, true, false, false, false, false⟩ emptyStore "k" "v").1 = .ok () ∧
    (multiSet ⟨false, false, false, false, true, false, false, false⟩ emptyStore "k" "v").1 = .ok () ∧
    (multiGet okFlags (multiSet ⟨false, true, false, false, false, false, false, false⟩ emptyStore "k" "v").2 "k").1 = .ok (some "v") ∧
    (multiGet okFlags (multiSet ⟨false, false, false, true, false, false, false, false⟩ emptyStore "k" "v").2 "k").1 = .ok (some "v") ∧
    (multiSet ⟨false, false, false, false, false, true, false, false⟩ emptyStore "k" "v").1 = .error () ∧
    (multiGet ⟨false, false, false, false, false, false, true, false⟩ emptyStore "k").1 = .error () ∧
    (multiRemove ⟨false, false, false, false, false, false, false, true⟩ emptyStore "k").1 = .error () :=
  ⟨rfl, rfl, rfl, rfl, rfl, rfl, rfl, rfl⟩

/-- C3 counterexample: with a cached identity present and the refresh
fetch failing with a network error, initializeAuth resolves to null but
does NOT clear the cached identity from storage. -/
theorem initializeAuth_net_error_keeps_cached_identity :
    (initializeAuth quietEnv okFlags seededWorld).1 = none ∧
    (initializeAuth quietEnv okFlags seededWorld).2.store.ls "auth_user" =
      some (stringifyUser cachedUser) ∧
    (initializeAuth quietEnv okFlags seededWorld).2.store.ls "auth_user" ≠ none := by
  refine ⟨rfl, rfl, ?_⟩
  intro h
  rw [show (initializeAuth quietEnv okFlags seededWorld).2.store.ls "auth_user" =
      some (stringifyUser cachedUser) from rfl] at h
  cases h

/-- C3 (amended): with no token in memory and a cached identity present,
any refresh failure makes initializeAuth resolve null; the cached
identity is cleared from all three tiers only when the refresh endpoint
answers with a non-OK HTTP status (the sign-out inside refreshToken); on
a network error or a body without success/access_token the stores are
left unchanged. -/
theorem initializeAuth_refresh_failure_resolves_absent (env : Env) (w : World)
    (hTok : w.accessToken = none)
    (hCached : (getCurrentUserSync okFlags w).isSome = true)
    (hFail : refreshSucceeds env.refreshResp = false) :
    (initializeAuth env okFlags w).1 = none ∧
    (env.refreshResp = .httpError →
       (initializeAuth env okFlags w).2.store.ls (getStorageKeys w.cfg).user = none ∧
       (initializeAuth env okFlags w).2.store.cookie (getStorageKeys w.cfg).user = none ∧
       (initializeAuth env okFlags w).2.store.idb (getStorageKeys w.cfg).user = none) ∧
    (env.refreshResp ≠ .httpError →
       (initializeAuth env okFlags w).2.store = w.store) := by
  obtain ⟨cfg, atok, store, cbs, tr, mc⟩ := w
  simp only at hTok hCached ⊢
  subst hTok
  obtain ⟨u, hu⟩ := Option.isSome_iff_exists.mp hCached
  cases hr : env.refreshResp with
  | netError =>
    refine ⟨?_, ?_, ?_⟩
    · simp [initializeAuth, truthy_none, hu, refreshToken, hr, emit]
    · intro hc
      exact RefreshResp.noConfusion hc
    · intro _
      simp [initializeAuth, truthy_none, hu, refreshToken, hr, emit]
  | httpError =>
    have hs := signOut_eq env
      (emit ⟨cfg, none, store, cbs, tr, mc⟩ Event.fetchRefresh)
    simp only [emit] at hs
    refine ⟨?_, ?_, ?_⟩
    · simp [initializeAuth, truthy_none, hu, refreshToken, hr, emit, hs, setMap_same]
    · intro _
      simp [initializeAuth, truthy_none, hu, refreshToken, hr, emit, hs, setMap_same]
    · intro hc
      exact absurd rfl hc
  | body ok tok =>
    rw [hr] at hFail
    simp only [refreshSucceeds] at hFail
    refine ⟨?_, ?_, ?_⟩
    · simp [initializeAuth, truthy_none, hu, refreshToken, hr, emit, hFail]
    · intro hc
      exact RefreshResp.noConfusion hc
    · intro _
      simp [initializeAuth, truthy_none, hu, refreshToken, hr, emit, hFail]

/-- C3 witness: the amended theorem at the concrete seeded world and the
network-failing refresh endpoint. -/
theorem initializeAuth_refresh_failure_resolves_absent_witness :
    (initializeAuth quietEnv okFlags seededWorld).1 = none ∧
    (initializeAuth quietEnv okFlags seededWorld).2.store = seededWorld.store := by
  have h := initializeAuth_refresh_failure_resolves_absent quietEnv seededWorld rfl rfl rfl
  exact ⟨h.1, h.2.2 (by intro hc; cases hc)⟩

/-- C4 counterexample: the empty string stored only in localStorage is a
value present in exactly one tier, yet multiGet returns null (not that
value) and performs no repair into the cookie tier. -/
theorem multiGet_empty_value_not_returned :
    (multiGet okFlags lsOnlyEmpty "k").1 = .ok none ∧
    (multiGet okFlags lsOnlyEmpty "k").1 ≠ .ok (some "") ∧
    (multiGet okFlags lsOnlyEmpty "k").2.cookie "k" = none := by
  refine ⟨rfl, ?_, rfl⟩
  intro h
  rw [show (multiGet okFlags lsOnlyEmpty "k").1 = .ok (none : Option String) from rfl] at h
  exact Option.noConfusion (Except.ok.inj h)

/-- C4 (amended): for every NON-EMPTY value v present in exactly one
healthy tier, multiGet returns v and writes v into the tiers that missed;
probing order is localStorage, cookie, IndexedDB, and a non-empty
localStorage hit is returned first regardless of the other tiers. -/
theorem multiGet_priority_and_repair (s : Store) (k v : String) (hv : v ≠ "") :
    (s.ls k = some v → (multiGet okFlags s k).1 = .ok (some v)) ∧
    (s.cookie k = none → s.idb k = none → s.ls k = some v →
       multiGet okFlags s k =
         (.ok (some v),
          { s with cookie := setMap s.cookie k (some v),
                   idb := setMap s.idb k (some v) })) ∧
    (s.ls k = none → s.idb k = none → s.cookie k = some v →
       multiGet okFlags s k =
         (.ok (some v),
          { s with ls := setMap s.ls k (some v),
                   idb := setMap s.idb k (some v) })) ∧
    (s.ls k = none → s.cookie k = none → s.idb k = some v →
       multiGet okFlags s k =
         (.ok (some v),
          { s with ls := setMap s.ls k (some v),
                   cookie := setMap s.cookie k (some v) })) := by
  refine ⟨?_, ?_, ?_, ?_⟩
  · intro hls
    simp [multiGet, okFlags, hls, truthy, hv, repairTier, getCookie, setCookie, setIndexedDB]
  · intro hc hi hls
    simp [multiGet, okFlags, hls, truthy, hv, repairTier, getCookie, setCookie, setIndexedDB]
  · intro hls hi hc
    simp [multiGet, okFlags, hls, hc, truthy, hv, repairTier, getCookie, setCookie, setIndexedDB]
  · intro hls hc hi
    simp [multiGet, okFlags, hls, hc, hi, truthy, hv, repairTier, getCookie, setCookie,
      setIndexedDB, getIndexedDB]

/-- C4 witness: with "v" only in IndexedDB, multiGet returns it and both
synchronous tiers contain it afterwards. -/
theorem multiGet_priority_and_repair_witness :
    (multiGet okFlags idbOnlyStore "k").1 = .ok (some "v") ∧
    (multiGet okFlags idbOnlyStore "k").2.ls "k" = some "v" ∧
    (multiGet okFlags idbOnlyStore "k").2.cookie "k" = some "v" := by
  have h := (multiGet_priority_and_repair idbOnlyStore "k" "v" (by decide)).2.2.2 rfl rfl rfl
  rw [h]
  exact ⟨rfl, rfl, rfl⟩

/-- C5: signOut clears the volatile token before any storage removal,
provider revocation or server-logout step (the clear is the first step of
its trace), and the signed-out state is broadcast to every subscriber in
every environment — including those where the server logout call fails
or times out — before the final provider re-initialization. -/
theorem signOut_clears_token_first_broadcast_unconditional (env : Env) (w : World) :
    (signOut env okFlags w).1 = .ok () ∧
    (signOut env okFlags w).2.accessToken = none ∧
    (∃ mid : List Event,
       (signOut env okFlags w).2.trace =
         w.trace ++ Event.clearToken ::
           Event.storageRemove (getStorageKeys w.cfg).user :: mid ++
           notifyOrder w.callbacks none ++ [Event.initGoogle]) ∧
    (∀ c ∈ w.callbacks, Event.cbCall c none ∈ (signOut env okFlags w).2.trace) := by
  rw [signOut_eq]
  refine ⟨rfl, rfl,
    ⟨signOutMid env (getCurrentUserSync okFlags w) w.accessToken, rfl⟩, ?_⟩
  intro c hc
  have hm := mem_notifyOrder w.callbacks none c hc
  simp [hm]

/-- C6: with no token in memory and no cached identity in either
synchronous tier, initializeAuth resolves null, performs no network call
and leaves the stores untouched. -/
theorem initializeAuth_fresh_browser_no_network (env : Env) (w : World)
    (hTok : w.accessToken = none)
    (hLs : w.store.ls (getStorageKeys w.cfg).user = none)
    (hCk : w.store.cookie (getStorageKeys w.cfg).user = none) :
    (initializeAuth env okFlags w).1 = none ∧
    (initializeAuth env okFlags w).2.trace.filter Event.isNetwork =
      w.trace.filter Event.isNetwork ∧
    (initializeAuth env okFlags w).2.store = w.store := by
  have hsync : getCurrentUserSync okFlags w = none := by
    simp [getCurrentUserSync, multiGetSync, hLs, hCk, truthy, getCookie]
  simp [initializeAuth, hTok, truthy, hsync, emit, Event.isNetwork]

/-- C6 witness: the fresh world makes zero network calls and resolves
null. -/
theorem initializeAuth_fresh_browser_no_network_witness :
    (initializeAuth quietEnv okFlags freshWorld).1 = none ∧
    (initializeAuth quietEnv okFlags freshWorld).2.trace.filter Event.isNetwork = [] := by
  have h := initializeAuth_fresh_browser_no_network quietEnv freshWorld rfl rfl rfl
  exact ⟨h.1, h.2.1⟩

/-- C7 counterexample: with the empty string in localStorage and "c" in
the cookie jar, multiGetSync skips the (present) localStorage value and
returns the cookie value instead. -/
theorem multiGetSync_empty_ls_falls_to_cookie :
    multiGetSync okFlags lsEmptyCookieC "k" = some "c" ∧
    multiGetSync okFlags lsEmptyCookieC "k" ≠ some "" := by
  refine ⟨rfl, ?_⟩
  intro h
  rw [show multiGetSync okFlags lsEmptyCookieC "k" = some "c" from rfl] at h
  exact absurd (Option.some.inj h) (by decide)

/-- C7 (amended): multiGetSync returns the localStorage value when it is
non-empty, otherwise the cookie lookup's result (the cookie value when
present, else null); its result is independent of the IndexedDB tier and
it performs no writes (it is a pure read of the two synchronous tiers). -/
theorem multiGetSync_sync_tiers_only (s : Store) (k : String) :
    (∀ v : String, s.ls k = some v → v ≠ "" → multiGetSync okFlags s k = some v) ∧
    (truthy (s.ls k) = false → multiGetSync okFlags s k = s.cookie k) ∧
    (∀ g : String → Option String,
       multiGetSync okFlags { s with idb := g } k = multiGetSync okFlags s k) := by
  refine ⟨?_, ?_, ?_⟩
  · intro v hls hv
    simp [multiGetSync, okFlags, hls, truthy, hv]
  · intro hfalsy
    simp [multiGetSync, okFlags, hfalsy, getCookie]
  · intro g
    simp [multiGetSync, okFlags, getCookie]

/-- C7 witness: the amended theorem at a concrete store; changing the
IndexedDB tier does not change the result. -/
theorem multiGetSync_sync_tiers_only_witness :
    multiGetSync okFlags lsOnlyV "k" = some "v" ∧
    multiGetSync okFlags { lsOnlyV with idb := setMap lsOnlyV.idb "k" (some "zzz") } "k" =
      multiGetSync okFlags lsOnlyV "k" := by
  have h := multiGetSync_sync_tiers_only lsOnlyV "k"
  exact ⟨h.1 "v" rfl (by decide), h.2.2 (setMap lsOnlyV.idb "k" (some "zzz"))⟩

/-- C8: the unsubscribe closure is idempotent; a notification invokes
exactly the currently subscribed callbacks, synchronously in list order;
subscription appends to the end of the list, so after any sequence of
subscribe/unsubscribe events the invocation order is a subsequence of
the subscription order (and exactly the subscription order when nothing
unsubscribed). -/
theorem subscription_unsubscribe_idempotent_ordered :
    (∀ (cbs : List Nat) (c : Nat),
       unsubscribe c (unsubscribe c cbs) = unsubscribe c cbs) ∧
    (∀ (w : World) (u : Option GoogleUser),
       (notifyAuthStateChange w u).trace = w.trace ++ notifyOrder w.callbacks u ∧
       (notifyAuthStateChange w u).callbacks = w.callbacks) ∧
    (∀ (cbs : List Nat) (c : Nat), onAuthStateChange cbs c = cbs ++ [c]) ∧
    (∀ ids : List Nat, applySubEvents (ids.map SubEvent.sub) [] = ids) ∧
    (∀ evs : List SubEvent, (applySubEvents evs []).Sublist (subsOf evs)) := by
  refine ⟨?_, ?_, ?_, ?_, ?_⟩
  · intro cbs c
    simp [unsubscribe, List.filter_filter]
  · intro w u
    exact ⟨rfl, rfl⟩
  · intro cbs c
    rfl
  · intro ids
    simpa using applySubEvents_subs_only ids []
  · intro evs
    simpa using applySubEvents_sublist evs []

/-- C9 counterexample: after multiSet(k, "") succeeds in every tier,
multiGet and multiGetSync return the empty string, not null. -/
theorem multiGet_after_empty_multiSet_counterexample :
    (multiGet okFlags (multiSet okFlags emptyStore "k" "").2 "k").1 = .ok (some "") ∧
    multiGetSync okFlags (multiSet okFlags emptyStore "k" "").2 "k" = some "" ∧
    (multiGet okFlags (multiSet okFlags emptyStore "k" "").2 "k").1 ≠ .ok none := by
  refine ⟨rfl, rfl, ?_⟩
  intro h
  rw [show (multiGet okFlags (multiSet okFlags emptyStore "k" "").2 "k").1 =
      .ok (some "") from rfl] at h
  exact Option.noConfusion (Except.ok.inj h)

/-- C9 (amended): after multiSet(k, ""), the truthiness presence checks
treat the empty string as absent — no source is recorded, no repair
happens, and the store is unchanged — but multiGet returns the last
probe's result "" and multiGetSync returns the cookie lookup's "", so
both return the empty string rather than null. -/
theorem empty_string_reads_return_empty (s : Store) (k : String) :
    (multiSet okFlags s k "").1 = .ok () ∧
    multiGet okFlags (multiSet okFlags s k "").2 k =
      (.ok (some ""), (multiSet okFlags s k "").2) ∧
    multiGetSync okFlags (multiSet okFlags s k "").2 k = some "" := by
  refine ⟨rfl, ?_, ?_⟩
  · simp [multiSet, multiGet, okFlags, setCookie, getCookie, setIndexedDB, getIndexedDB,
      truthy, setMap_same]
  · simp [multiSet, multiGetSync, okFlags, setCookie, getCookie, setIndexedDB,
      truthy, setMap_same]

/-- C10 counterexample: a second configuration call explicitly supplying
the empty prefix is ignored — the effective prefix stays "x" (and so do
the derived keys), while the claim's most-recent-explicitly-supplied
reading demands "". -/
theorem configure_empty_prefix_ignored_counterexample :
    (applyConfigs divergingCalls).storagePrefix = "x" ∧
    lastExplicitPrefixSpec divergingCalls = "" ∧
    (applyConfigs divergingCalls).storagePrefix ≠ lastExplicitPrefixSpec divergingCalls ∧
    getStorageKeys (applyConfigs divergingCalls) = ⟨"x_user", "x_avatar_cache"⟩ := by
  refine ⟨rfl, rfl, ?_, rfl⟩
  intro h
  rw [show (applyConfigs divergingCalls).storagePrefix = "x" from rfl,
    show lastExplicitPrefixSpec divergingCalls = "" from rfl] at h
  simp at h

/-- C10 (amended): the effective storage prefix after any sequence of
configureGoogleAuth calls is the storagePrefix of the most recent call
supplying a NON-EMPTY one (an omitted or empty prefix keeps the previous
value), defaulting to "auth"; the derived keys are prefix_user and
prefix_avatar_cache. -/
theorem effective_storage_prefix_last_nonempty :
    (∀ cs : List ConfigInput,
       (applyConfigs cs).storagePrefix = lastNonEmptyPrefix cs) ∧
    (∀ (cfg : GoogleAuthConfig) (cid url : String),
       (configureGoogleAuth cfg ⟨cid, url, none⟩).storagePrefix = cfg.storagePrefix) ∧
    (∀ cfg : GoogleAuthConfig,
       getStorageKeys cfg =
         ⟨cfg.storagePrefix ++ "_user", cfg.storagePrefix ++ "_avatar_cache"⟩) := by
  refine ⟨?_, ?_, ?_⟩
  · intro cs
    exact foldl_configure_prefix cs initialConfig
  · intro cfg cid url
    rfl
  · intro cfg
    rfl

end GoogleAuthSvc
